import Mathlib

/-!
Verification of the `circom-groth16-helpers` repository: the ZKey → arkworks
conversion (`circom-types/src/groth16/zkey_to_ark.rs`), the hand-rolled
`ConstraintMatricesWrapper` codec, and the Solidity-verifier projection and
CLI (`groth16-sol/src/lib.rs`, `groth16-sol/src/bin/gnark-sol-extractor.rs`).

Shallow embedding conventions:
* Rust `usize` values are `Nat`; overflow/underflow of machine arithmetic is
  modelled explicitly (`usizeSub` panics on underflow, as Rust does with
  overflow checks enabled; release builds would wrap modulo 2^64 instead).
* A Rust panic (`unwrap`, arithmetic underflow) is the `Outcome.panicked`
  constructor; byte streams are `List Nat` with every byte < 256.
* The external `ark-serialize` primitive codec (out of scope of the
  repository, delegated to the arkworks library) is modelled concretely:
  `usize`/`u64` as 8 little-endian bytes, a prime-field element of modulus
  `p` as `Fin p` stored as fixed-width little-endian bytes, a `Vec` as a
  `u64` length prefix followed by its elements, a pair as its two
  components in order.  The `Compress`/`Validate` flags are threaded
  through every call exactly as in arkworks, where they do not affect the
  layout of field elements or integers.
-/

namespace CircomGroth16

/-- Rust's `usize` modulus on a 64-bit target. -/
def USIZE : Nat := 2 ^ 64

/-- Outcome of a Rust computation that may panic (`unwrap`, underflow). -/
inductive Outcome (α : Type u) where
  | ok (a : α)
  | panicked
deriving DecidableEq

/-- Sequencing of possibly-panicking Rust computations. -/
def Outcome.bind : Outcome α → (α → Outcome β) → Outcome β
  | .ok a, f => f a
  | .panicked, _ => .panicked

/-- Mapping over a possibly-panicking Rust computation. -/
def Outcome.map (f : α → β) : Outcome α → Outcome β
  | .ok a => .ok (f a)
  | .panicked => .panicked

/-- Rust `usize` subtraction: panics on underflow (debug semantics; release
builds would instead wrap modulo 2^64). -/
def usizeSub (a b : Nat) : Outcome Nat :=
  if b ≤ a then .ok (a - b) else .panicked

/-- `ark_serialize::Compress`. -/
inductive Compress where
  | yes
  | no
deriving DecidableEq

/-- `ark_serialize::Validate`. -/
inductive Validate where
  | yes
  | no
deriving DecidableEq

/-- Little-endian byte encoding, fixed width `k` (truncating above 2^(8k)). -/
def natToLEBytes : Nat → Nat → List Nat
  | 0, _ => []
  | k + 1, n => n % 256 :: natToLEBytes k (n / 256)

/-- Value of a little-endian byte list. -/
def leBytesToNat : List Nat → Nat
  | [] => 0
  | b :: bs => b + 256 * leBytesToNat bs

/-- A deserializer consumes a prefix of the byte stream. -/
abbrev Deser (α : Type) := List Nat → Option (α × List Nat)

/-- Read exactly `k` bytes from the stream. -/
def readBytes (k : Nat) : Deser (List Nat) := fun bs =>
  if k ≤ bs.length then some (bs.take k, bs.drop k) else none

theorem natToLEBytes_length (k n : Nat) : (natToLEBytes k n).length = k := by
  induction k generalizing n with
  | zero => rfl
  | succ k ih => simp [natToLEBytes, ih]

theorem leBytesToNat_natToLEBytes (k n : Nat) :
    leBytesToNat (natToLEBytes k n) = n % 2 ^ (8 * k) := by
  induction k generalizing n with
  | zero => simp [natToLEBytes, leBytesToNat, Nat.mod_one]
  | succ k ih =>
    have h256 : (2 : Nat) ^ (8 * (k + 1)) = 256 * 2 ^ (8 * k) := by
      rw [Nat.mul_succ, Nat.pow_add]
      ring
    rw [natToLEBytes, leBytesToNat, ih, h256, Nat.mod_mul]

theorem leBytesToNat_natToLEBytes_of_lt {k n : Nat} (h : n < 2 ^ (8 * k)) :
    leBytesToNat (natToLEBytes k n) = n := by
  rw [leBytesToNat_natToLEBytes, Nat.mod_eq_of_lt h]

theorem readBytes_append {k : Nat} {xs : List Nat} (h : xs.length = k)
    (rest : List Nat) : readBytes k (xs ++ rest) = some (xs, rest) := by
  subst h
  simp [readBytes, List.take_left, List.drop_left]

/-- `ark-serialize` encoding of a `usize`: 8 little-endian bytes (as `u64`);
the `Compress` flag is accepted but does not affect integer layout. -/
def serUsize (_ : Compress) (n : Nat) : List Nat := natToLEBytes 8 n

/-- `ark-serialize` decoding of a `usize` from 8 little-endian bytes. -/
def deserUsize (_ : Compress) (_ : Validate) : Deser Nat := fun bs =>
  (readBytes 8 bs).map fun pr => (leBytesToNat pr.1, pr.2)

/-- Byte width of a serialized prime-field element of modulus `p`
(`(MODULUS_BIT_SIZE + 7) / 8` in arkworks). -/
def fieldByteLen (p : Nat) : Nat := Nat.log2 p / 8 + 1

/-- `ark-serialize` encoding of a prime-field element: fixed-width
little-endian bytes of its canonical representative; field elements have
identical compressed and uncompressed layouts. -/
def serField {p : Nat} (_ : Compress) (x : Fin p) : List Nat :=
  natToLEBytes (fieldByteLen p) x.val

/-- `ark-serialize` decoding of a prime-field element; rejects
representatives that are not below the modulus. -/
def deserField (p : Nat) (_ : Compress) (_ : Validate) : Deser (Fin p) := fun bs =>
  (readBytes (fieldByteLen p) bs).bind fun pr =>
    if hn : leBytesToNat pr.1 < p then some (⟨leBytesToNat pr.1, hn⟩, pr.2)
    else none

/-- A sparse-row entry `(coefficient, column-index)`; tuples serialize
component-wise in order. -/
def serEntry {p : Nat} (compress : Compress) (e : Fin p × Nat) : List Nat :=
  serField compress e.1 ++ serUsize compress e.2

/-- Decoding of a `(coefficient, column-index)` entry. -/
def deserEntry (p : Nat) (compress : Compress) (validate : Validate) :
    Deser (Fin p × Nat) := fun bs =>
  (deserField p compress validate bs).bind fun pr =>
    (deserUsize compress validate pr.2).map fun qr => ((pr.1, qr.1), qr.2)

/-- Concatenated encodings of the elements of a vector (no length prefix). -/
def serList (s : α → List Nat) (l : List α) : List Nat :=
  (l.map s).flatten

/-- `ark-serialize` encoding of a `Vec`: `u64` length prefix, then elements. -/
def serVec (compress : Compress) (s : α → List Nat) (l : List α) : List Nat :=
  serUsize compress l.length ++ serList s l

/-- Decode exactly `k` consecutive elements. -/
def deserCount (d : Deser α) : Nat → Deser (List α)
  | 0 => fun bs => some ([], bs)
  | k + 1 => fun bs =>
    (d bs).bind fun pr =>
      (deserCount d k pr.2).map fun qr => (pr.1 :: qr.1, qr.2)

/-- `ark-serialize` decoding of a `Vec`: read the `u64` length, then that
many elements. -/
def deserVec (compress : Compress) (validate : Validate) (d : Deser α) :
    Deser (List α) := fun bs =>
  (deserUsize compress validate bs).bind fun pr => deserCount d pr.1 pr.2

/-- A sparse matrix: rows of `(coefficient, column-index)` entries. -/
abbrev Matrix (p : Nat) := List (List (Fin p × Nat))

/-- Encoding of one sparse row. -/
def serRow {p : Nat} (compress : Compress) (r : List (Fin p × Nat)) : List Nat :=
  serVec compress (serEntry compress) r

/-- Encoding of a sparse matrix (vector of rows). -/
def serMatrix {p : Nat} (compress : Compress) (m : Matrix p) : List Nat :=
  serVec compress (serRow compress) m

/-- Decoding of one sparse row. -/
def deserRow (p : Nat) (compress : Compress) (validate : Validate) :
    Deser (List (Fin p × Nat)) :=
  deserVec compress validate (deserEntry p compress validate)

/-- Decoding of a sparse matrix. -/
def deserMatrix (p : Nat) (compress : Compress) (validate : Validate) :
    Deser (Matrix p) :=
  deserVec compress validate (deserRow p compress validate)

theorem deserUsize_serUsize {n : Nat} (hn : n < USIZE)
    (compress c' : Compress) (validate : Validate) (rest : List Nat) :
    deserUsize c' validate (serUsize compress n ++ rest) = some (n, rest) := by
  have hn' : n < 2 ^ (8 * 8) := by simpa [USIZE] using hn
  simp [deserUsize, serUsize, readBytes_append (natToLEBytes_length 8 n),
    leBytesToNat_natToLEBytes_of_lt hn']

theorem fin_val_lt_pow {p : Nat} (x : Fin p) :
    x.val < 2 ^ (8 * fieldByteLen p) := by
  have h1 : p < 2 ^ (Nat.log2 p + 1) := Nat.lt_log2_self
  have h2 : Nat.log2 p + 1 ≤ 8 * fieldByteLen p := by
    have hd := Nat.div_add_mod (Nat.log2 p) 8
    have hm : Nat.log2 p % 8 < 8 := Nat.mod_lt _ (by omega)
    rw [fieldByteLen]
    omega
  calc x.val < p := x.isLt
    _ < 2 ^ (Nat.log2 p + 1) := h1
    _ ≤ 2 ^ (8 * fieldByteLen p) := Nat.pow_le_pow_right (by omega) h2

theorem deserField_serField {p : Nat} (x : Fin p)
    (compress c' : Compress) (validate : Validate) (rest : List Nat) :
    deserField p c' validate (serField compress x ++ rest) = some (x, rest) := by
  simp [deserField, serField,
    readBytes_append (natToLEBytes_length (fieldByteLen p) x.val),
    leBytesToNat_natToLEBytes_of_lt (fin_val_lt_pow x), x.isLt]

theorem deserEntry_serEntry {p : Nat} (e : Fin p × Nat) (he : e.2 < USIZE)
    (compress : Compress) (validate : Validate) (rest : List Nat) :
    deserEntry p compress validate (serEntry compress e ++ rest) =
      some (e, rest) := by
  simp [deserEntry, serEntry, List.append_assoc, deserField_serField,
    deserUsize_serUsize he]

theorem deserCount_serList {d : Deser α} {s : α → List Nat} {l : List α}
    (H : ∀ a ∈ l, ∀ rest, d (s a ++ rest) = some (a, rest)) (rest : List Nat) :
    deserCount d l.length (serList s l ++ rest) = some (l, rest) := by
  induction l with
  | nil => simp [serList, deserCount]
  | cons a l ih =>
    have ha := H a (List.mem_cons_self a l)
    have ih' := ih fun b hb => H b (List.mem_cons_of_mem a hb)
    rw [serList, List.map_cons, List.flatten_cons, List.append_assoc,
      List.length_cons]
    simp only [deserCount, ha, Option.some_bind]
    rw [serList] at ih'
    rw [ih', Option.map_some']

theorem deserVec_serVec {d : Deser α} {s : α → List Nat} {l : List α}
    (H : ∀ a ∈ l, ∀ rest, d (s a ++ rest) = some (a, rest))
    (hlen : l.length < USIZE) (compress : Compress) (validate : Validate)
    (rest : List Nat) :
    deserVec compress validate d (serVec compress s l ++ rest) =
      some (l, rest) := by
  simp only [deserVec, serVec, List.append_assoc,
    deserUsize_serUsize hlen, Option.some_bind]
  exact deserCount_serList H rest

/-- `ark_relations::r1cs::ConstraintMatrices` (the external target type),
with the scalar field instantiated as the integers modulo `p`. -/
structure ConstraintMatrices (p : Nat) where
  num_instance_variables : Nat
  num_witness_variables : Nat
  num_constraints : Nat
  a : Matrix p
  b : Matrix p
  c : Matrix p
  a_num_non_zero : Nat
  b_num_non_zero : Nat
  c_num_non_zero : Nat
deriving DecidableEq

/-- `ConstraintMatricesWrapper` (`zkey_to_ark.rs` lines 20–22): newtype
around the foreign `ConstraintMatrices` carrying the hand-rolled codec. -/
structure ConstraintMatricesWrapper (p : Nat) where
  inner : ConstraintMatrices p
deriving DecidableEq

/-- `ConstraintMatricesWrapper::serialize_with_mode` (`zkey_to_ark.rs`
lines 44–71): sequential writes of `a`, `b`, `c` and the six counters into
the writer. -/
def ConstraintMatricesWrapper.serialize_with_mode {p : Nat}
    (w : ConstraintMatricesWrapper p) (compress : Compress) : List Nat :=
  let writer : List Nat := []
  let writer := writer ++ serMatrix compress w.inner.a
  let writer := writer ++ serMatrix compress w.inner.b
  let writer := writer ++ serMatrix compress w.inner.c
  let writer := writer ++ serUsize compress w.inner.a_num_non_zero
  let writer := writer ++ serUsize compress w.inner.b_num_non_zero
  let writer := writer ++ serUsize compress w.inner.c_num_non_zero
  let writer := writer ++ serUsize compress w.inner.num_instance_variables
  let writer := writer ++ serUsize compress w.inner.num_witness_variables
  let writer := writer ++ serUsize compress w.inner.num_constraints
  writer

/-- `ark-serialize` size of a `usize`. -/
def usizeSerializedSize (_ : Compress) (_ : Nat) : Nat := 8

/-- `ark-serialize` size of a row entry: field element plus column index. -/
def entrySerializedSize {p : Nat} (_ : Compress) (_ : Fin p × Nat) : Nat :=
  fieldByteLen p + 8

/-- `ark-serialize` size of a `Vec`: length prefix plus element sizes. -/
def vecSerializedSize (sz : α → Nat) (l : List α) : Nat :=
  8 + (l.map sz).sum

/-- `ark-serialize` size of one sparse row. -/
def rowSerializedSize {p : Nat} (compress : Compress)
    (r : List (Fin p × Nat)) : Nat :=
  vecSerializedSize (entrySerializedSize compress) r

/-- `ark-serialize` size of a sparse matrix. -/
def matrixSerializedSize {p : Nat} (compress : Compress) (m : Matrix p) : Nat :=
  vecSerializedSize (rowSerializedSize compress) m

/-- `ConstraintMatricesWrapper::serialized_size` (`zkey_to_ark.rs` lines
73–83): sum of the nine per-field sizes in the same field order. -/
def ConstraintMatricesWrapper.serialized_size {p : Nat}
    (w : ConstraintMatricesWrapper p) (compress : Compress) : Nat :=
  matrixSerializedSize compress w.inner.a
    + matrixSerializedSize compress w.inner.b
    + matrixSerializedSize compress w.inner.c
    + usizeSerializedSize compress w.inner.a_num_non_zero
    + usizeSerializedSize compress w.inner.b_num_non_zero
    + usizeSerializedSize compress w.inner.c_num_non_zero
    + usizeSerializedSize compress w.inner.num_instance_variables
    + usizeSerializedSize compress w.inner.num_witness_variables
    + usizeSerializedSize compress w.inner.num_constraints

/-- `ark_serialize::SerializationError`. -/
inductive SerializationError where
  | NotEnoughSpace
  | InvalidData
  | UnexpectedFlags
  | IoError
deriving DecidableEq

/-- `Valid::check` for `usize` in arkworks: always succeeds. -/
def usizeCheck (_ : Nat) : Except SerializationError Unit := .ok ()

/-- `Valid::check` for a prime-field element in arkworks: a constructed
element is always a valid representative. -/
def fieldCheck {p : Nat} (_ : Fin p) : Except SerializationError Unit := .ok ()

/-- `Valid::check` for a `(coefficient, column)` entry: both components. -/
def entryCheck {p : Nat} (e : Fin p × Nat) : Except SerializationError Unit :=
  (fieldCheck e.1).bind fun _ => usizeCheck e.2

/-- `Valid::check` for a `Vec`: every element. -/
def listCheck (ch : α → Except SerializationError Unit) :
    List α → Except SerializationError Unit
  | [] => .ok ()
  | x :: l => (ch x).bind fun _ => listCheck ch l

/-- `Valid::check` for one sparse row. -/
def rowCheck {p : Nat} (r : List (Fin p × Nat)) :
    Except SerializationError Unit :=
  listCheck entryCheck r

/-- `Valid::check` for a sparse matrix. -/
def matrixCheck {p : Nat} (m : Matrix p) : Except SerializationError Unit :=
  listCheck rowCheck m

/-- `Valid::check` for `ConstraintMatricesWrapper` (`zkey_to_ark.rs` lines
86–99): delegates to each field's check in order; no cross-checks. -/
def ConstraintMatricesWrapper.check {p : Nat}
    (w : ConstraintMatricesWrapper p) : Except SerializationError Unit :=
  (matrixCheck w.inner.a).bind fun _ =>
  (matrixCheck w.inner.b).bind fun _ =>
  (matrixCheck w.inner.c).bind fun _ =>
  (usizeCheck w.inner.a_num_non_zero).bind fun _ =>
  (usizeCheck w.inner.b_num_non_zero).bind fun _ =>
  (usizeCheck w.inner.c_num_non_zero).bind fun _ =>
  (usizeCheck w.inner.num_instance_variables).bind fun _ =>
  (usizeCheck w.inner.num_witness_variables).bind fun _ =>
  usizeCheck w.inner.num_constraints

/-- `ConstraintMatricesWrapper::deserialize_with_mode` (`zkey_to_ark.rs`
lines 102–134): sequential reads of `a`, `b`, `c` and the six counters, then
construction of the wrapper. -/
def ConstraintMatricesWrapper.deserialize_with_mode (p : Nat)
    (compress : Compress) (validate : Validate) :
    Deser (ConstraintMatricesWrapper p) := fun bs =>
  (deserMatrix p compress validate bs).bind fun a =>
  (deserMatrix p compress validate a.2).bind fun b =>
  (deserMatrix p compress validate b.2).bind fun c =>
  (deserUsize compress validate c.2).bind fun anz =>
  (deserUsize compress validate anz.2).bind fun bnz =>
  (deserUsize compress validate bnz.2).bind fun cnz =>
  (deserUsize compress validate cnz.2).bind fun niv =>
  (deserUsize compress validate niv.2).bind fun nwv =>
  (deserUsize compress validate nwv.2).map fun nc =>
    (⟨{ num_instance_variables := niv.1
        num_witness_variables := nwv.1
        num_constraints := nc.1
        a := a.1
        b := b.1
        c := c.1
        a_num_non_zero := anz.1
        b_num_non_zero := bnz.1
        c_num_non_zero := cnz.1 }⟩, nc.2)

/-- A row entry is within `usize` range. -/
def EntryBounded {p : Nat} (e : Fin p × Nat) : Prop := e.2 < USIZE

/-- A row and all its entries are within `usize` range. -/
def RowBounded {p : Nat} (r : List (Fin p × Nat)) : Prop :=
  r.length < USIZE ∧ ∀ e ∈ r, EntryBounded e

/-- A matrix and all its rows are within `usize` range. -/
def MatrixBounded {p : Nat} (m : Matrix p) : Prop :=
  m.length < USIZE ∧ ∀ r ∈ m, RowBounded r

/-- All `usize`-typed data of a wrapped value is within `usize` range; this
holds of every value a Rust program can build. -/
def WrapperBounded {p : Nat} (w : ConstraintMatricesWrapper p) : Prop :=
  MatrixBounded w.inner.a ∧ MatrixBounded w.inner.b ∧ MatrixBounded w.inner.c
    ∧ w.inner.a_num_non_zero < USIZE ∧ w.inner.b_num_non_zero < USIZE
    ∧ w.inner.c_num_non_zero < USIZE ∧ w.inner.num_instance_variables < USIZE
    ∧ w.inner.num_witness_variables < USIZE ∧ w.inner.num_constraints < USIZE

instance {p : Nat} (e : Fin p × Nat) : Decidable (EntryBounded e) := by
  unfold EntryBounded; infer_instance

instance {p : Nat} (r : List (Fin p × Nat)) : Decidable (RowBounded r) := by
  unfold RowBounded; infer_instance

instance {p : Nat} (m : Matrix p) : Decidable (MatrixBounded m) := by
  unfold MatrixBounded; infer_instance

instance {p : Nat} (w : ConstraintMatricesWrapper p) :
    Decidable (WrapperBounded w) := by
  unfold WrapperBounded; infer_instance

theorem deserMatrix_serMatrix {p : Nat} {m : Matrix p} (hm : MatrixBounded m)
    (compress : Compress) (validate : Validate) (rest : List Nat) :
    deserMatrix p compress validate (serMatrix compress m ++ rest) =
      some (m, rest) := by
  rw [deserMatrix, serMatrix]
  refine deserVec_serVec ?_ hm.1 compress validate rest
  intro r hr rest'
  rw [deserRow, serRow]
  refine deserVec_serVec ?_ (hm.2 r hr).1 compress validate rest'
  intro e he rest''
  exact deserEntry_serEntry e ((hm.2 r hr).2 e he) compress validate rest''

/-- The encoder emits the nine fields as one concatenation in the order of
`serialize_with_mode`. -/
theorem serialize_with_mode_eq {p : Nat} (w : ConstraintMatricesWrapper p)
    (compress : Compress) :
    w.serialize_with_mode compress =
      serMatrix compress w.inner.a ++ serMatrix compress w.inner.b
        ++ serMatrix compress w.inner.c
        ++ serUsize compress w.inner.a_num_non_zero
        ++ serUsize compress w.inner.b_num_non_zero
        ++ serUsize compress w.inner.c_num_non_zero
        ++ serUsize compress w.inner.num_instance_variables
        ++ serUsize compress w.inner.num_witness_variables
        ++ serUsize compress w.inner.num_constraints := by
  simp [ConstraintMatricesWrapper.serialize_with_mode, List.append_assoc]

theorem wrapper_deser_ser {p : Nat} {w : ConstraintMatricesWrapper p}
    (hw : WrapperBounded w) (compress : Compress) (validate : Validate)
    (rest : List Nat) :
    ConstraintMatricesWrapper.deserialize_with_mode p compress validate
        (w.serialize_with_mode compress ++ rest) = some (w, rest) := by
  obtain ⟨ha, hb, hc, h1, h2, h3, h4, h5, h6⟩ := hw
  rw [serialize_with_mode_eq]
  simp only [List.append_assoc]
  simp only [ConstraintMatricesWrapper.deserialize_with_mode,
    deserMatrix_serMatrix ha, deserMatrix_serMatrix hb,
    deserMatrix_serMatrix hc, deserUsize_serUsize h1,
    deserUsize_serUsize h2, deserUsize_serUsize h3,
    deserUsize_serUsize h4, deserUsize_serUsize h5,
    deserUsize_serUsize h6, Option.some_bind, Option.map_some']

theorem serVec_length {s : α → List Nat} {sz : α → Nat} {l : List α}
    (hsz : ∀ a ∈ l, (s a).length = sz a) (compress : Compress) :
    (serVec compress s l).length = vecSerializedSize sz l := by
  rw [serVec, serUsize, serList, vecSerializedSize, List.length_append,
    natToLEBytes_length, List.length_flatten, List.map_map]
  congr 1
  refine congrArg List.sum (List.map_congr_left fun a ha => ?_)
  simp [Function.comp, hsz a ha]

theorem serEntry_length {p : Nat} (compress : Compress) (e : Fin p × Nat) :
    (serEntry compress e).length = entrySerializedSize compress e := by
  simp [serEntry, serField, serUsize, entrySerializedSize,
    natToLEBytes_length]

theorem serRow_length {p : Nat} (compress : Compress)
    (r : List (Fin p × Nat)) :
    (serRow compress r).length = rowSerializedSize compress r := by
  rw [serRow, rowSerializedSize]
  exact serVec_length (fun e _ => serEntry_length compress e) compress

theorem serMatrix_length {p : Nat} (compress : Compress) (m : Matrix p) :
    (serMatrix compress m).length = matrixSerializedSize compress m := by
  rw [serMatrix, matrixSerializedSize]
  exact serVec_length (fun r _ => serRow_length compress r) compress

theorem listCheck_ok {ch : α → Except SerializationError Unit} {l : List α}
    (H : ∀ a ∈ l, ch a = .ok ()) : listCheck ch l = .ok () := by
  induction l with
  | nil => rfl
  | cons a l ih =>
    rw [listCheck, H a (List.mem_cons_self a l)]
    exact ih fun b hb => H b (List.mem_cons_of_mem a hb)

theorem matrixCheck_ok {p : Nat} (m : Matrix p) : matrixCheck m = .ok () := by
  rw [matrixCheck]
  refine listCheck_ok fun r _ => ?_
  rw [rowCheck]
  exact listCheck_ok fun e _ => rfl

/-- The `ZKey` produced by the circom zkey parser.  The declaration itself
lives outside the extracted sources; its fields are exactly those the
conversion in `zkey_to_ark.rs` reads, with types as described in the spec
(§3): counts, the two sparse matrices, and the curve-point data, the latter
kept abstract as type parameters `G1`, `G2` (curve arithmetic is external). -/
structure ZKey (p : Nat) (G1 G2 : Type) where
  n_public : Nat
  num_constraints : Nat
  a_matrix : Matrix p
  b_matrix : Matrix p
  alpha_g1 : G1
  beta_g1 : G1
  delta_g1 : G1
  beta_g2 : G2
  gamma_g2 : G2
  delta_g2 : G2
  ic : List G1
  a_query : List G1
  b_g1_query : List G1
  b_g2_query : List G2
  h_query : List G1
  l_query : List G1
deriving DecidableEq

/-- `ark_groth16::VerifyingKey` (external target type). -/
structure VerifyingKey (G1 G2 : Type) where
  alpha_g1 : G1
  beta_g2 : G2
  gamma_g2 : G2
  delta_g2 : G2
  gamma_abc_g1 : List G1
deriving DecidableEq

/-- `ark_groth16::ProvingKey` (external target type). -/
structure ProvingKey (G1 G2 : Type) where
  vk : VerifyingKey G1 G2
  beta_g1 : G1
  delta_g1 : G1
  a_query : List G1
  b_g1_query : List G1
  b_g2_query : List G2
  h_query : List G1
  l_query : List G1
deriving DecidableEq

/-- `impl From<ZKey<P>> for (ConstraintMatrices, ProvingKey)`
(`zkey_to_ark.rs` lines 155–187).  The Rust body computes
`zkey.a_query.len() - zkey.n_public - 1` with unchecked `usize`
subtraction; the two subtractions are modelled by `usizeSub`, whose
underflow is the panic of an overflow-checked build (a release build would
instead wrap modulo 2^64).  There is no error return in the source: the
`From` impl is infallible apart from that panic. -/
def zkeyToMatricesAndPk {p : Nat} {G1 G2 : Type} (zkey : ZKey p G1 G2) :
    Outcome (ConstraintMatrices p × ProvingKey G1 G2) :=
  (usizeSub zkey.a_query.length zkey.n_public).bind fun t =>
  (usizeSub t 1).map fun nwv =>
    ({ num_instance_variables := zkey.n_public + 1
       num_witness_variables := nwv
       num_constraints := zkey.num_constraints
       a_num_non_zero := zkey.a_matrix.length
       b_num_non_zero := zkey.b_matrix.length
       c_num_non_zero := 0
       a := zkey.a_matrix
       b := zkey.b_matrix
       c := [] },
     { vk := { alpha_g1 := zkey.alpha_g1
               beta_g2 := zkey.beta_g2
               gamma_g2 := zkey.gamma_g2
               delta_g2 := zkey.delta_g2
               gamma_abc_g1 := zkey.ic }
       beta_g1 := zkey.beta_g1
       delta_g1 := zkey.delta_g1
       a_query := zkey.a_query
       b_g1_query := zkey.b_g1_query
       b_g2_query := zkey.b_g2_query
       h_query := zkey.h_query
       l_query := zkey.l_query })

/-- `ArkZkey` (`zkey_to_ark.rs` lines 12–18). -/
structure ArkZkey (p : Nat) (G1 G2 : Type) where
  matrices : ConstraintMatricesWrapper p
  pk : ProvingKey G1 G2
deriving DecidableEq

/-- `ArkZkey::into_inner` (`zkey_to_ark.rs` lines 26–28, via the `From`
impl at lines 149–153): unwrap the matrices newtype and hand back the pair. -/
def ArkZkey.into_inner {p : Nat} {G1 G2 : Type} (z : ArkZkey p G1 G2) :
    ConstraintMatrices p × ProvingKey G1 G2 :=
  (z.matrices.inner, z.pk)

/-- `impl From<ZKey<P>> for ArkZkey<P>` (`zkey_to_ark.rs` lines 189–225):
the source duplicates the construction of the pair verbatim and then wraps
the matrices.  Transcribed independently of `zkeyToMatricesAndPk`. -/
def zkeyToArkZkey {p : Nat} {G1 G2 : Type} (zkey : ZKey p G1 G2) :
    Outcome (ArkZkey p G1 G2) :=
  (usizeSub zkey.a_query.length zkey.n_public).bind fun t =>
  (usizeSub t 1).map fun nwv =>
    { matrices := ⟨{ num_instance_variables := zkey.n_public + 1
                     num_witness_variables := nwv
                     num_constraints := zkey.num_constraints
                     a_num_non_zero := zkey.a_matrix.length
                     b_num_non_zero := zkey.b_matrix.length
                     c_num_non_zero := 0
                     a := zkey.a_matrix
                     b := zkey.b_matrix
                     c := [] }⟩
      pk := { vk := { alpha_g1 := zkey.alpha_g1
                      beta_g2 := zkey.beta_g2
                      gamma_g2 := zkey.gamma_g2
                      delta_g2 := zkey.delta_g2
                      gamma_abc_g1 := zkey.ic }
              beta_g1 := zkey.beta_g1
              delta_g1 := zkey.delta_g1
              a_query := zkey.a_query
              b_g1_query := zkey.b_g1_query
              b_g2_query := zkey.b_g2_query
              h_query := zkey.h_query
              l_query := zkey.l_query } }

/-- `SolidityVerifierConfig` (`groth16-sol/src/lib.rs` lines 70–73). -/
structure SolidityVerifierConfig where
  pragma_version : String
deriving DecidableEq

/-- `SolidityVerifierConfig::default` (`lib.rs` lines 75–81). -/
def SolidityVerifierConfig.default : SolidityVerifierConfig :=
  { pragma_version := "^0.8.0" }

/-- `SolidityVerifierContext` (`lib.rs` lines 56–63): the verifying key
paired with the renderer configuration; this record is the whole projection
handed to the external `askama` templating engine. -/
structure SolidityVerifierContext (G1 G2 : Type) where
  vk : VerifyingKey G1 G2
  config : SolidityVerifierConfig
deriving DecidableEq

/-- The effects the `gnark-sol-extractor` CLI run interacts with: results
of the file open, the verification-key parse, the external `askama`
render, and the output write, plus the parsed arguments.  These model the
external collaborators of `main` (`gnark-sol-extractor.rs` lines 26–46). -/
structure ExtractorEnv (G1 G2 : Type) where
  open_input : Except String Unit
  parse_vk : Except String (VerifyingKey G1 G2)
  render : SolidityVerifierContext G1 G2 → Except String String
  output : Option String
  write_output : Except String Unit
  pragma_version : String

/-- `main` of `gnark-sol-extractor.rs` (lines 26–46): `?` on the file open
and the parse attaches an `eyre` context message and returns the error
(non-zero exit); the render result is consumed with `.unwrap()`, so a
render failure is a panic; a write failure again returns a contextual
error.  Success is `ExitCode::SUCCESS` (0). -/
def extractorMain {G1 G2 : Type} (env : ExtractorEnv G1 G2) :
    Outcome (Except String Nat) :=
  match env.open_input with
  | .error e => .ok (.error ("while opening input file: " ++ e))
  | .ok _ =>
    match env.parse_vk with
    | .error e => .ok (.error ("while parsing verification-key: " ++ e))
    | .ok vk =>
      let contract : SolidityVerifierContext G1 G2 :=
        { vk := vk, config := { pragma_version := env.pragma_version } }
      match env.render contract with
      | .error _ => .panicked
      | .ok rendered =>
        match env.output with
        | some _ =>
          match env.write_output with
          | .error e => .ok (.error ("while writing output: " ++ e))
          | .ok _ => .ok (.ok 0)
        | none =>
          let _ := rendered
          .ok (.ok 0)

/-! Concrete sample values used by the closed theorems and witnesses. -/

/-- An export whose `a_query` is shorter than `n_public + 1`. -/
def shortZkey : ZKey 5 Nat Nat :=
  { n_public := 1, num_constraints := 0, a_matrix := [], b_matrix := []
    alpha_g1 := 0, beta_g1 := 0, delta_g1 := 0, beta_g2 := 0, gamma_g2 := 0
    delta_g2 := 0, ic := [], a_query := [], b_g1_query := [], b_g2_query := []
    h_query := [], l_query := [] }

/-- A well-formed export: `n_public = 1`, `a_query` of length 3. -/
def okZkey : ZKey 5 Nat Nat :=
  { n_public := 1, num_constraints := 1
    a_matrix := [[(⟨2, by decide⟩, 1)]], b_matrix := []
    alpha_g1 := 3, beta_g1 := 4, delta_g1 := 5, beta_g2 := 6, gamma_g2 := 7
    delta_g2 := 8, ic := [9, 10], a_query := [11, 12, 13]
    b_g1_query := [14], b_g2_query := [15], h_query := [16], l_query := [17] }

/-- The constraint matrices `okZkey` converts to. -/
def cm1 : ConstraintMatrices 5 :=
  { num_instance_variables := 2, num_witness_variables := 1
    num_constraints := 1, a := [[(⟨2, by decide⟩, 1)]], b := [], c := []
    a_num_non_zero := 1, b_num_non_zero := 0, c_num_non_zero := 0 }

/-- The proving key `okZkey` converts to. -/
def pk1 : ProvingKey Nat Nat :=
  { vk := { alpha_g1 := 3, beta_g2 := 6, gamma_g2 := 7, delta_g2 := 8
            gamma_abc_g1 := [9, 10] }
    beta_g1 := 4, delta_g1 := 5, a_query := [11, 12, 13]
    b_g1_query := [14], b_g2_query := [15], h_query := [16], l_query := [17] }

/-- A small wrapped constraint-matrices value with non-empty matrices. -/
def w0 : ConstraintMatricesWrapper 5 :=
  ⟨{ num_instance_variables := 2, num_witness_variables := 1
     num_constraints := 1, a := [[(⟨2, by decide⟩, 1)]]
     b := [[(⟨3, by decide⟩, 0)]], c := []
     a_num_non_zero := 1, b_num_non_zero := 1, c_num_non_zero := 0 }⟩

/-- A wrapped value whose stored `a_num_non_zero` counter disagrees with
the actual length of matrix `a`. -/
def wMis : ConstraintMatricesWrapper 5 :=
  ⟨{ num_instance_variables := 1, num_witness_variables := 0
     num_constraints := 0, a := [], b := [], c := []
     a_num_non_zero := 5, b_num_non_zero := 0, c_num_non_zero := 0 }⟩

/-- A CLI run in which the input opens and parses but the external
templating engine fails during rendering. -/
def renderFailEnv : ExtractorEnv Nat Nat :=
  { open_input := .ok ()
    parse_vk := .ok { alpha_g1 := 0, beta_g2 := 0, gamma_g2 := 0
                      delta_g2 := 0, gamma_abc_g1 := [] }
    render := fun _ => .error "askama render error"
    output := none
    write_output := .ok ()
    pragma_version := "^0.8.0" }

/-! The claims. -/

/-- Claim C1 (refuted by the code, confirming the spec's stated intent):
on an export with `length(a_query) < n_public + 1` both `From<ZKey>`
conversion paths perform the unchecked `usize` subtraction
`a_query.len() - n_public - 1`, which underflows: an overflow-checked
build panics and a release build wraps to about 2^64; no `InvalidInput`
error is ever produced, because the `From` impls have no error channel
at all. -/
theorem c1_short_a_query_conversion_panics :
    zkeyToMatricesAndPk shortZkey = Outcome.panicked
      ∧ zkeyToArkZkey shortZkey = Outcome.panicked :=
  ⟨rfl, rfl⟩

/-- Claim C2 (refuted by the code, confirming the spec's stated intent):
when the external templating engine fails, `main` of
`gnark-sol-extractor.rs` hits `.unwrap()` on the render result and the
process aborts with a panic instead of returning a recoverable error. -/
theorem c2_render_failure_panics :
    extractorMain renderFailEnv = Outcome.panicked :=
  rfl

/-- Claim C3: for every wrapped `ConstraintMatrices` value and each
serialization mode, deserializing the bytes produced by serialization in
the same mode yields the original value (and consumes the whole stream). -/
theorem c3_decode_encode_roundtrip {p : Nat}
    (w : ConstraintMatricesWrapper p) (compress : Compress)
    (validate : Validate) (hw : WrapperBounded w) :
    ConstraintMatricesWrapper.deserialize_with_mode p compress validate
        (w.serialize_with_mode compress) = some (w, []) := by
  have h := wrapper_deser_ser hw compress validate []
  simpa using h

/-- Witness for C3 at a concrete wrapped value, compressed mode. -/
theorem c3_decode_encode_roundtrip_witness :
    WrapperBounded w0
      ∧ ConstraintMatricesWrapper.deserialize_with_mode 5 Compress.yes
          Validate.yes (w0.serialize_with_mode Compress.yes) = some (w0, []) :=
  ⟨by decide, c3_decode_encode_roundtrip w0 Compress.yes Validate.yes (by decide)⟩

/-- Claim C4: for an export with `n_public = P` and `length(a_query) = L`
with `L ≥ P + 1`, the converted matrices have
`num_instance_variables = P + 1` and `num_witness_variables = L - P - 1`. -/
theorem c4_conversion_counts {p : Nat} {G1 G2 : Type} (z : ZKey p G1 G2)
    (h : z.n_public + 1 ≤ z.a_query.length) :
    Outcome.map
        (fun pr => (pr.1.num_instance_variables, pr.1.num_witness_variables))
        (zkeyToMatricesAndPk z)
      = Outcome.ok (z.n_public + 1, z.a_query.length - z.n_public - 1) := by
  have h1 : z.n_public ≤ z.a_query.length := by omega
  have h2 : 1 ≤ z.a_query.length - z.n_public := by omega
  simp [zkeyToMatricesAndPk, usizeSub, h1, h2, Outcome.bind, Outcome.map]

/-- Witness for C4 at `okZkey` (`P = 1`, `L = 3`). -/
theorem c4_conversion_counts_witness :
    okZkey.n_public + 1 ≤ okZkey.a_query.length
      ∧ Outcome.map
          (fun pr => (pr.1.num_instance_variables, pr.1.num_witness_variables))
          (zkeyToMatricesAndPk okZkey) = Outcome.ok (2, 1) :=
  ⟨by decide, c4_conversion_counts okZkey (by decide)⟩

/-- Claim C5: every successfully converted artifact has
`a_num_non_zero = length(a_matrix)`, `b_num_non_zero = length(b_matrix)`,
`c_num_non_zero = 0` and an empty `c` matrix. -/
theorem c5_nonzero_counts {p : Nat} {G1 G2 : Type} (z : ZKey p G1 G2)
    (cm : ConstraintMatrices p) (pk : ProvingKey G1 G2)
    (h : zkeyToMatricesAndPk z = Outcome.ok (cm, pk)) :
    cm.a_num_non_zero = z.a_matrix.length
      ∧ cm.b_num_non_zero = z.b_matrix.length
      ∧ cm.c_num_non_zero = 0 ∧ cm.c = [] := by
  rw [zkeyToMatricesAndPk] at h
  cases h1 : usizeSub z.a_query.length z.n_public with
  | panicked => rw [h1] at h; simp [Outcome.bind] at h
  | ok t =>
    rw [h1] at h
    simp only [Outcome.bind] at h
    cases h2 : usizeSub t 1 with
    | panicked => rw [h2] at h; simp [Outcome.map] at h
    | ok nwv =>
      rw [h2] at h
      simp only [Outcome.map, Outcome.ok.injEq, Prod.mk.injEq] at h
      obtain ⟨hcm, hpk⟩ := h
      subst hcm
      simp

/-- Witness for C5 at `okZkey` and its conversion result. -/
theorem c5_nonzero_counts_witness :
    zkeyToMatricesAndPk okZkey = Outcome.ok (cm1, pk1)
      ∧ (cm1.a_num_non_zero = okZkey.a_matrix.length
          ∧ cm1.b_num_non_zero = okZkey.b_matrix.length
          ∧ cm1.c_num_non_zero = 0 ∧ cm1.c = []) :=
  ⟨by decide, c5_nonzero_counts okZkey cm1 pk1 (by decide)⟩

/-- Claim C6: the encoder writes matrix `a`, matrix `b`, matrix `c`, then
the six counters `a_num_non_zero, b_num_non_zero, c_num_non_zero,
num_instance_variables, num_witness_variables, num_constraints`, as one
concatenation in exactly that order; and the decoder reads the fields back
in the same order, returning the original value and leaving any trailing
bytes untouched. -/
theorem c6_encode_decode_field_order {p : Nat}
    (w : ConstraintMatricesWrapper p) (compress : Compress) :
    w.serialize_with_mode compress
        = serMatrix compress w.inner.a ++ serMatrix compress w.inner.b
          ++ serMatrix compress w.inner.c
          ++ serUsize compress w.inner.a_num_non_zero
          ++ serUsize compress w.inner.b_num_non_zero
          ++ serUsize compress w.inner.c_num_non_zero
          ++ serUsize compress w.inner.num_instance_variables
          ++ serUsize compress w.inner.num_witness_variables
          ++ serUsize compress w.inner.num_constraints
      ∧ ∀ (validate : Validate) (rest : List Nat), WrapperBounded w →
          ConstraintMatricesWrapper.deserialize_with_mode p compress validate
              (w.serialize_with_mode compress ++ rest) = some (w, rest) :=
  ⟨serialize_with_mode_eq w compress,
    fun validate rest hw => wrapper_deser_ser hw compress validate rest⟩

/-- Witness for C6 at `w0`, uncompressed mode, with a trailing byte. -/
theorem c6_encode_decode_field_order_witness :
    (w0.serialize_with_mode Compress.no
        = serMatrix Compress.no w0.inner.a ++ serMatrix Compress.no w0.inner.b
          ++ serMatrix Compress.no w0.inner.c
          ++ serUsize Compress.no w0.inner.a_num_non_zero
          ++ serUsize Compress.no w0.inner.b_num_non_zero
          ++ serUsize Compress.no w0.inner.c_num_non_zero
          ++ serUsize Compress.no w0.inner.num_instance_variables
          ++ serUsize Compress.no w0.inner.num_witness_variables
          ++ serUsize Compress.no w0.inner.num_constraints)
      ∧ ConstraintMatricesWrapper.deserialize_with_mode 5 Compress.no
          Validate.no (w0.serialize_with_mode Compress.no ++ [7])
          = some (w0, [7]) :=
  ⟨(c6_encode_decode_field_order w0 Compress.no).1,
    (c6_encode_decode_field_order w0 Compress.no).2 Validate.no [7] (by decide)⟩

/-- Claim C7: for every wrapped value and each mode, `serialized_size`
equals the byte length of the stream `serialize_with_mode` produces. -/
theorem c7_size_eq_encoded_length {p : Nat}
    (w : ConstraintMatricesWrapper p) (compress : Compress) :
    w.serialized_size compress = (w.serialize_with_mode compress).length := by
  rw [serialize_with_mode_eq]
  simp only [List.length_append, serMatrix_length, serUsize,
    natToLEBytes_length]
  rw [ConstraintMatricesWrapper.serialized_size]
  simp only [usizeSerializedSize]

/-- Claim C8: `Valid::check` for the wrapper delegates to the per-field
checks only; it succeeds even when a stored counter disagrees with the
actual matrix length, because it never cross-checks counters against
matrix lengths. -/
theorem c8_check_ignores_counter_mismatch {p : Nat}
    (w : ConstraintMatricesWrapper p)
    (_hmis : w.inner.a_num_non_zero ≠ w.inner.a.length) :
    w.check = Except.ok () := by
  simp [ConstraintMatricesWrapper.check, matrixCheck_ok, usizeCheck,
    Except.bind]

/-- Witness for C8 at `wMis`, whose counter is 5 but whose `a` is empty. -/
theorem c8_check_ignores_counter_mismatch_witness :
    wMis.inner.a_num_non_zero ≠ wMis.inner.a.length
      ∧ wMis.check = Except.ok () :=
  ⟨by decide, c8_check_ignores_counter_mismatch wMis (by decide)⟩

/-- Claim C9: building a `SolidityVerifierContext` is a pure record
construction — two constructions from the same verifying key and
configuration are equal, and the stored key and configuration are exactly
the inputs (the source is carried over unmodified, never mutated). -/
theorem c9_projection_pure {G1 G2 : Type} (vk : VerifyingKey G1 G2)
    (config : SolidityVerifierConfig) :
    ({ vk := vk, config := config } : SolidityVerifierContext G1 G2)
        = { vk := vk, config := config }
      ∧ ({ vk := vk, config := config } : SolidityVerifierContext G1 G2).vk = vk
      ∧ ({ vk := vk, config := config } :
          SolidityVerifierContext G1 G2).config = config :=
  ⟨rfl, rfl, rfl⟩

/-- Claim C10: converting a `ZKey` through `ArkZkey` and unwrapping with
`into_inner` agrees exactly with the direct conversion to the
`(ConstraintMatrices, ProvingKey)` pair, on every input (both paths also
panic on exactly the same inputs). -/
theorem c10_conversion_paths_agree {p : Nat} {G1 G2 : Type}
    (z : ZKey p G1 G2) :
    Outcome.map ArkZkey.into_inner (zkeyToArkZkey z)
      = zkeyToMatricesAndPk z := by
  rw [zkeyToArkZkey, zkeyToMatricesAndPk]
  cases h1 : usizeSub z.a_query.length z.n_public with
  | panicked => simp [Outcome.bind, Outcome.map]
  | ok t =>
    simp only [Outcome.bind]
    cases h2 : usizeSub t 1 with
    | panicked => simp [Outcome.map]
    | ok nwv => simp [Outcome.map, ArkZkey.into_inner]

end CircomGroth16
